import Mathlib

/-!
Verification of the conversation-manager core of the chat application
(`chatService.py`), shallowly embedded in Lean 4.

Modelling conventions:
* A `ChatService` (the spec's ConversationManager) is a record of the three
  Python instance attributes `api_key`, `messages`, `system_prompt`.
* Message `role` fields are plain strings, as in the source.
* `datetime.now().strftime(...)` is an effect; each history-appending
  operation takes the produced timestamp string as an explicit argument.
* The OpenAI call is an effect; `get_ai_response` takes the transport as a
  function argument from the request payload to a classified outcome
  (`ApiResult` covers the success case and the four `except` arms of the
  source).  The third component of its result records the list of payloads
  actually handed to the transport, so that "no network interaction" is the
  statement that this list is empty; the source invokes the transport at
  most once per call.
-/

/-- Python `str.strip()`: drop whitespace from both ends.  Defined by
structural recursion over the character list so that it evaluates inside
the kernel (`String.trim` in core does not). -/
def pyStrip (s : String) : String :=
  String.mk (((s.data.dropWhile Char.isWhitespace).reverse.dropWhile
    Char.isWhitespace).reverse)

/-- A conversation message: the dict built by `add_user_message` /
`add_assistant_message` with keys `role`, `content`, `timestamp`. -/
structure Message where
  role : String
  content : String
  timestamp : String
deriving Repr, DecidableEq

/-- State of `ChatService`: attributes set in `__init__`. -/
structure ChatService where
  api_key : String
  messages : List Message
  system_prompt : String
deriving Repr, DecidableEq

/-- The fixed system prompt returned by `ChatService._get_system_prompt`. -/
def get_system_prompt : String :=
  "You are an educational AI assistant specialized in Science and Mathematics. \n\nIMPORTANT RESTRICTIONS:\n- Only answer questions related to science (physics, chemistry, biology, earth science, etc.) and mathematics (algebra, calculus, geometry, statistics, etc.)\n- Focus on educational content that helps with studying and learning\n- Provide explanations, solve problems, clarify concepts, and offer study guidance\n- If asked about non-science/math topics (jokes, entertainment, general chat, personal advice, etc.), politely decline and redirect to educational topics\n\nRESPONSE FORMAT:\n- Give clear, step-by-step explanations\n- Include relevant formulas, theories, or principles when applicable\n- Provide examples to illustrate concepts\n- Suggest related topics for further study when helpful\n\nIf a question is not related to science or mathematics education, respond with: \"I\x27m designed to help with science and mathematics questions for educational purposes. Please ask me about topics like physics, chemistry, biology, mathematics, or other scientific concepts that can help with your studies.\"\n"

/-- `ChatService.__init__(api_key)`. -/
def ChatService.init (api_key : String) : ChatService :=
  { api_key := api_key, messages := [], system_prompt := get_system_prompt }

/-- `ChatService.set_api_key`. -/
def ChatService.set_api_key (s : ChatService) (api_key : String) : ChatService :=
  { s with api_key := api_key }

/-- `ChatService.validate_api_key`: `bool(self.api_key.strip())`, i.e. the
stripped key is non-empty. -/
def ChatService.validate_api_key (s : ChatService) : Bool :=
  pyStrip s.api_key != ""

/-- `ChatService.add_user_message`: builds the message dict (content
stripped, role `"user"`, the wall-clock timestamp), appends it to history,
and returns it.  Returns the created message together with the new state. -/
def ChatService.add_user_message (s : ChatService) (content : String)
    (now : String) : Message × ChatService :=
  let message : Message := { role := "user", content := pyStrip content, timestamp := now }
  (message, { s with messages := s.messages ++ [message] })

/-- `ChatService.add_assistant_message`: identical to `add_user_message`
with role fixed to `"assistant"`. -/
def ChatService.add_assistant_message (s : ChatService) (content : String)
    (now : String) : Message × ChatService :=
  let message : Message := { role := "assistant", content := pyStrip content, timestamp := now }
  (message, { s with messages := s.messages ++ [message] })

/-- One role/content entry of the payload list `messages_for_api`. -/
structure ApiMessage where
  role : String
  content : String
deriving Repr, DecidableEq

/-- Outcome of the OpenAI chat-completion call, covering the success path
and the four `except` arms of `get_ai_response`. -/
inductive ApiResult where
  | ok (text : String)
  | authError
  | rateLimitError
  | apiError (detail : String)
  | otherError (detail : String)
deriving Repr, DecidableEq

/-- `ChatService.get_ai_response`.  Returns
`(response or error message, success flag, payloads sent to the transport)`.
The source checks the key, then the stripped input, then builds
`messages_for_api` as system prompt :: history (role/content only) ++ the
raw current user message, calls the endpoint once, and maps each exception
class to its fixed error string. -/
def ChatService.get_ai_response (s : ChatService) (user_message : String)
    (transport : List ApiMessage → ApiResult) :
    String × Bool × List (List ApiMessage) :=
  if !s.validate_api_key then
    ("❌ API key not configured.", false, [])
  else if (pyStrip user_message == "") then
    ("❌ Empty message provided.", false, [])
  else
    let messages_for_api : List ApiMessage :=
      { role := "system", content := s.system_prompt } ::
        (s.messages.map (fun msg => { role := msg.role, content := msg.content }) ++
          [{ role := "user", content := user_message }])
    match transport messages_for_api with
    | ApiResult.ok text =>
        (text, true, [messages_for_api])
    | ApiResult.authError =>
        ("❌ Authentication failed. Please check your OpenAI API key.", false, [messages_for_api])
    | ApiResult.rateLimitError =>
        ("❌ Rate limit exceeded. Please try again later.", false, [messages_for_api])
    | ApiResult.apiError detail =>
        ("❌ OpenAI API error: " ++ detail, false, [messages_for_api])
    | ApiResult.otherError detail =>
        ("❌ Unexpected error: " ++ detail, false, [messages_for_api])

/-- `ChatService.process_conversation_turn`: adds the user message, obtains
the AI response (against the post-add history), records the response as an
assistant message, and returns
`(user message, assistant message, success, new state, payloads sent)`. -/
def ChatService.process_conversation_turn (s : ChatService) (user_input : String)
    (now1 now2 : String) (transport : List ApiMessage → ApiResult) :
    Message × Message × Bool × ChatService × List (List ApiMessage) :=
  let r1 := s.add_user_message user_input now1
  let r2 := r1.2.get_ai_response user_input transport
  let r3 := r1.2.add_assistant_message r2.1 now2
  (r1.1, r3.1, r2.2.1, r3.2, r2.2.2)

/-- `ChatService.get_messages`: `self.messages.copy()`.  In the pure model
the copied list has the same value as the internal one; the address-level
sharing behaviour of the copy is treated separately below. -/
def ChatService.get_messages (s : ChatService) : List Message :=
  s.messages

/-- `ChatService.clear_conversation`: `self.messages = []`. -/
def ChatService.clear_conversation (s : ChatService) : ChatService :=
  { s with messages := [] }

/-- `ChatService.get_message_count`. -/
def ChatService.get_message_count (s : ChatService) : Nat :=
  s.messages.length

/-- The dict returned by `ChatService.get_conversation_stats`. -/
structure ConversationStats where
  total_messages : Nat
  user_messages : Nat
  assistant_messages : Nat
deriving Repr, DecidableEq

/-- `ChatService.get_conversation_stats`: counts of messages by role. -/
def ChatService.get_conversation_stats (s : ChatService) : ConversationStats :=
  { total_messages := s.messages.length,
    user_messages := s.messages.countP (fun msg => msg.role == "user"),
    assistant_messages := s.messages.countP (fun msg => msg.role == "assistant") }

/-- `ChatService.export_conversation`: the fixed no-history string on an
empty history, otherwise the header followed by one per-message block,
accumulated left to right exactly as the source's string concatenation. -/
def ChatService.export_conversation (s : ChatService) : String :=
  if s.messages.isEmpty then
    "No conversation history."
  else
    s.messages.foldl
      (fun acc message =>
        acc ++ "[" ++ message.timestamp ++ "] " ++
          (if message.role == "user" then "You" else "AI Assistant") ++
          ":\n" ++ message.content ++ "\n\n")
      "=== Conversation Export ===\n\n"

/-- `MultiChatService` state: the `services` dict (modelled as an
association list with Python dict update semantics: assignment to an
existing key updates in place, a new key is appended) and the
`active_service` name. -/
structure MultiChatService where
  services : List (String × ChatService)
  active_service : Option String

/-- `MultiChatService.__init__()`. -/
def MultiChatService.init : MultiChatService :=
  { services := [], active_service := none }

/-- Python dict assignment `d[name] = service`: update in place when the
key exists, append otherwise. -/
def dictAssign (d : List (String × ChatService)) (name : String)
    (service : ChatService) : List (String × ChatService) :=
  if d.any (fun p => p.1 == name) then
    d.map (fun p => if p.1 == name then (name, service) else p)
  else
    d ++ [(name, service)]

/-- Python `name in self.services`. -/
def dictHasKey (d : List (String × ChatService)) (name : String) : Bool :=
  d.any (fun p => p.1 == name)

/-- `MultiChatService.add_service`: stores the service under `name`; if no
service was active, the new name becomes active. -/
def MultiChatService.add_service (r : MultiChatService) (name : String)
    (service : ChatService) : MultiChatService :=
  let r1 : MultiChatService := { r with services := dictAssign r.services name service }
  if r1.active_service.isNone then
    { r1 with active_service := some name }
  else
    r1

/-- `MultiChatService.set_active_service`: returns the success flag and the
resulting state. -/
def MultiChatService.set_active_service (r : MultiChatService) (name : String) :
    Bool × MultiChatService :=
  if dictHasKey r.services name then
    (true, { r with active_service := some name })
  else
    (false, r)

/-- `MultiChatService.get_active_service`.  Python truthiness of the
active name: an empty-string name is falsy, so it never resolves. -/
def MultiChatService.get_active_service (r : MultiChatService) : Option ChatService :=
  match r.active_service with
  | none => none
  | some name =>
      if !name.isEmpty && dictHasKey r.services name then
        (r.services.find? (fun p => p.1 == name)).map (fun p => p.2)
      else
        none

/-- `MultiChatService.get_service_names`. -/
def MultiChatService.get_service_names (r : MultiChatService) : List String :=
  r.services.map (fun p => p.1)

/-- States of a `ChatService` reachable from construction by the mutating
operations of the spec's ConversationManager interface. -/
inductive ChatReachable : ChatService → Prop where
  | init (api_key : String) : ChatReachable (ChatService.init api_key)
  | setKey (s : ChatService) (k : String) :
      ChatReachable s → ChatReachable (s.set_api_key k)
  | user (s : ChatService) (c now : String) :
      ChatReachable s → ChatReachable (s.add_user_message c now).2
  | assistant (s : ChatService) (c now : String) :
      ChatReachable s → ChatReachable (s.add_assistant_message c now).2
  | turn (s : ChatService) (input now1 now2 : String)
      (transport : List ApiMessage → ApiResult) :
      ChatReachable s →
      ChatReachable (s.process_conversation_turn input now1 now2 transport).2.2.2.1
  | clear (s : ChatService) :
      ChatReachable s → ChatReachable s.clear_conversation

/-- States of a `MultiChatService` reachable from the empty registry by
`add_service` and `set_active_service`. -/
inductive RegistryReachable : MultiChatService → Prop where
  | init : RegistryReachable MultiChatService.init
  | add (r : MultiChatService) (name : String) (service : ChatService) :
      RegistryReachable r → RegistryReachable (r.add_service name service)
  | set (r : MultiChatService) (name : String) :
      RegistryReachable r → RegistryReachable (r.set_active_service name).2

/-!
Address-level model of the history list, needed only for the claim about
`get_messages` returning a defensive snapshot.  In CPython,
`self.messages` is a list of references to dict objects;
`self.messages.copy()` builds a fresh list holding references to the SAME
dicts.  We model the reference structure explicitly: a store of message
records addressed by index, and the history as a list of addresses.
`get_messages` hands the caller a copy of the address list; mutating a
field of a message dict obtained through that snapshot is an update of the
store at the corresponding address.
-/

/-- Store of message dict objects (address = index) together with the
`self.messages` list of addresses. -/
structure PyHeapState where
  store : List Message
  history : List Nat
deriving Repr, DecidableEq

/-- A fresh `ChatService`: empty store, empty history. -/
def heapInit : PyHeapState :=
  { store := [], history := [] }

/-- Allocate a message dict and append its address to `self.messages`
(the common step of `add_user_message` / `add_assistant_message`). -/
def heapAddMessage (st : PyHeapState) (m : Message) : PyHeapState :=
  { store := st.store ++ [m], history := st.history ++ [st.store.length] }

/-- `add_user_message` at address level. -/
def heapAddUser (st : PyHeapState) (content now : String) : PyHeapState :=
  heapAddMessage st { role := "user", content := pyStrip content, timestamp := now }

/-- `add_assistant_message` at address level. -/
def heapAddAssistant (st : PyHeapState) (content now : String) : PyHeapState :=
  heapAddMessage st { role := "assistant", content := pyStrip content, timestamp := now }

/-- Dereference an address in the store. -/
def heapDeref (store : List Message) (a : Nat) : Message :=
  store.getD a { role := "", content := "", timestamp := "" }

/-- `get_messages` at address level: `self.messages.copy()` yields a fresh
list containing the same addresses. -/
def heapGetMessages (st : PyHeapState) : List Nat :=
  st.history

/-- The message sequence a caller observes from a `get_messages` result:
each address is dereferenced in the current store. -/
def heapView (st : PyHeapState) : List Message :=
  st.history.map (heapDeref st.store)

/-- Caller-side in-place mutation `message["content"] = c` of the dict at
address `a` (reached, e.g., through a `get_messages` snapshot). -/
def heapSetContent (st : PyHeapState) (a : Nat) (c : String) : PyHeapState :=
  { st with
    store := st.store.set a
      { heapDeref st.store a with content := c } }

/-- One history-appending call, for talking about arbitrary sequences of
`add_user_message` / `add_assistant_message`. -/
inductive AddOp where
  | userOp (content now : String)
  | assistantOp (content now : String)

/-- The message record a given add operation creates. -/
def AddOp.message : AddOp → Message
  | AddOp.userOp content now =>
      { role := "user", content := pyStrip content, timestamp := now }
  | AddOp.assistantOp content now =>
      { role := "assistant", content := pyStrip content, timestamp := now }

/-- Run a sequence of add operations at address level. -/
def runAdds (st : PyHeapState) (ops : List AddOp) : PyHeapState :=
  ops.foldl
    (fun acc op =>
      match op with
      | AddOp.userOp content now => heapAddUser acc content now
      | AddOp.assistantOp content now => heapAddAssistant acc content now)
    st

/-!  Helper lemmas shared by several claims. -/

/-- The payloads handed to the transport by `get_ai_response` when both
local checks pass: exactly one request, system prompt first, then the
history (role/content only, in order), then the raw user text. -/
theorem get_ai_response_calls (s : ChatService) (userText : String)
    (transport : List ApiMessage → ApiResult)
    (hkey : s.validate_api_key = true) (hmsg : pyStrip userText ≠ "") :
    (s.get_ai_response userText transport).2.2 =
      [{ role := "system", content := s.system_prompt } ::
        (s.messages.map (fun m => { role := m.role, content := m.content }) ++
          [{ role := "user", content := userText }])] := by
  have hb : (pyStrip userText == "") = false := by
    simpa using hmsg
  unfold ChatService.get_ai_response
  rw [hkey]
  simp only [Bool.not_true, Bool.false_eq_true, if_false, hb, if_neg]
  cases transport ({ role := "system", content := s.system_prompt } ::
      (s.messages.map (fun m => { role := m.role, content := m.content }) ++
        [{ role := "user", content := userText }])) <;> rfl

/-- Success flag and text of `get_ai_response` when both local checks pass
and the transport succeeds. -/
theorem get_ai_response_ok (s : ChatService) (userText text : String)
    (hkey : s.validate_api_key = true) (hmsg : pyStrip userText ≠ "") :
    s.get_ai_response userText (fun _ => ApiResult.ok text) = (text, true,
      [{ role := "system", content := s.system_prompt } ::
        (s.messages.map (fun m => { role := m.role, content := m.content }) ++
          [{ role := "user", content := userText }])]) := by
  have hb : (pyStrip userText == "") = false := by
    simpa using hmsg
  unfold ChatService.get_ai_response
  rw [hkey]
  simp only [Bool.not_true, Bool.false_eq_true, if_false, hb, if_neg]

/-- C1, amended: `process_conversation_turn` appends exactly the returned
user/assistant pair, in that order; the user message holds the stripped
input; the assistant message is recorded whether or not the completion
succeeded, its content being the STRIPPED response/failure text (the
`add_assistant_message` call strips it); the returned flag is exactly the
flag `get_ai_response` produced. -/
theorem claim1_turn_appends_pair (s : ChatService) (input now1 now2 : String)
    (transport : List ApiMessage → ApiResult) :
    ((s.process_conversation_turn input now1 now2 transport).2.2.2.1).messages =
        s.messages ++ [(s.process_conversation_turn input now1 now2 transport).1,
          (s.process_conversation_turn input now1 now2 transport).2.1] ∧
    (s.process_conversation_turn input now1 now2 transport).1 =
        { role := "user", content := pyStrip input, timestamp := now1 } ∧
    (s.process_conversation_turn input now1 now2 transport).2.1 =
        { role := "assistant",
          content :=
            pyStrip ((s.add_user_message input now1).2.get_ai_response input transport).1,
          timestamp := now2 } ∧
    (s.process_conversation_turn input now1 now2 transport).2.2.1 =
        ((s.add_user_message input now1).2.get_ai_response input transport).2.1 := by
  refine ⟨?_, rfl, rfl, rfl⟩
  simp [ChatService.process_conversation_turn, ChatService.add_user_message,
    ChatService.add_assistant_message]

/-- C1, counterexample to the claim as stated: when the transport fails
with an exception whose text carries trailing whitespace, the failure text
returned by `get_ai_response` ends in that whitespace, but the recorded
assistant message holds the stripped form, so its content is NOT the
failure text. -/
theorem claim1_counterexample :
    (((ChatService.init "key").add_user_message "hi" "t1").2.get_ai_response "hi"
        (fun _ => ApiResult.otherError "boom ")).1 = "❌ Unexpected error: boom " ∧
    ((ChatService.init "key").process_conversation_turn "hi" "t1" "t2"
        (fun _ => ApiResult.otherError "boom ")).2.1.content = "❌ Unexpected error: boom" ∧
    ((ChatService.init "key").process_conversation_turn "hi" "t1" "t2"
        (fun _ => ApiResult.otherError "boom ")).2.1.content ≠
      (((ChatService.init "key").add_user_message "hi" "t1").2.get_ai_response "hi"
        (fun _ => ApiResult.otherError "boom ")).1 := by
  refine ⟨rfl, rfl, ?_⟩
  decide

/-- C2, amended: an input that strips to empty never reaches the network
and never succeeds, but the returned message depends on the credential:
the credential check runs FIRST, so with no valid credential the fixed
configuration-error message is returned instead of the input-error one. -/
theorem claim2_empty_input (s : ChatService) (input : String)
    (transport : List ApiMessage → ApiResult) (h : pyStrip input = "") :
    s.get_ai_response input transport =
      ((if s.validate_api_key then "❌ Empty message provided."
        else "❌ API key not configured."), false, []) := by
  unfold ChatService.get_ai_response
  cases hv : s.validate_api_key <;> simp [hv, h]

/-- C2, counterexample to the claim as stated: with the credential unset
and a whitespace-only input, `get_ai_response` returns the fixed
configuration-error message, not the fixed input-error message. -/
theorem claim2_counterexample :
    pyStrip "   " = "" ∧
    ((ChatService.init "").get_ai_response "   " (fun _ => ApiResult.ok "x")) =
      ("❌ API key not configured.", false, []) ∧
    ((ChatService.init "").get_ai_response "   " (fun _ => ApiResult.ok "x")).1 ≠
      "❌ Empty message provided." := by
  refine ⟨rfl, rfl, ?_⟩
  decide

/-- C2 witness: with a set credential and a whitespace-only input, the
amended statement instantiates to the fixed input-error result. -/
theorem claim2_empty_input_witness :
    (ChatService.init "k").get_ai_response "   " (fun _ => ApiResult.ok "x") =
      ("❌ Empty message provided.", false, []) := by
  have h := claim2_empty_input (ChatService.init "k") "   "
    (fun _ => ApiResult.ok "x") (by decide)
  simpa using h

/-- C5: with a credential that strips to empty, `get_ai_response` returns
the fixed configuration-error message with success=false and zero
transport invocations. -/
theorem claim5_no_credential (s : ChatService) (input : String)
    (transport : List ApiMessage → ApiResult) (h : pyStrip s.api_key = "") :
    s.get_ai_response input transport = ("❌ API key not configured.", false, []) := by
  unfold ChatService.get_ai_response ChatService.validate_api_key
  simp [h]

/-- C5 witness: a whitespace-only credential at a concrete input. -/
theorem claim5_no_credential_witness :
    pyStrip (ChatService.init "  ").api_key = "" ∧
    (ChatService.init "  ").get_ai_response "hi" (fun _ => ApiResult.ok "x") =
      ("❌ API key not configured.", false, []) :=
  ⟨rfl, claim5_no_credential (ChatService.init "  ") "hi"
    (fun _ => ApiResult.ok "x") rfl⟩

/-- C3: whenever `get_ai_response` reaches the network step, the single
payload it sends is the fixed system prompt first, then one entry per
history message in order (role and content only), then the current user
text as a final user entry. -/
theorem claim3_payload (s : ChatService) (userText : String)
    (transport : List ApiMessage → ApiResult)
    (hkey : s.validate_api_key = true) (hmsg : pyStrip userText ≠ "") :
    (s.get_ai_response userText transport).2.2 =
      [{ role := "system", content := s.system_prompt } ::
        (s.messages.map (fun m => { role := m.role, content := m.content }) ++
          [{ role := "user", content := userText }])] :=
  get_ai_response_calls s userText transport hkey hmsg

/-- C3 witness: a service with one history message sends exactly the
system prompt, that message, and the new user text. -/
theorem claim3_payload_witness :
    (((ChatService.init "k").add_user_message "q" "t").2).validate_api_key = true ∧
    pyStrip "hi" ≠ "" ∧
    ((((ChatService.init "k").add_user_message "q" "t").2).get_ai_response "hi"
        (fun _ => ApiResult.authError)).2.2 =
      [[{ role := "system", content := get_system_prompt },
        { role := "user", content := "q" },
        { role := "user", content := "hi" }]] := by
  refine ⟨rfl, by decide, ?_⟩
  exact claim3_payload (((ChatService.init "k").add_user_message "q" "t").2) "hi"
    (fun _ => ApiResult.authError) rfl (by decide)

/-- C4: in a `process_conversation_turn` that reaches the network, the
payload carries the user's text twice: the last history-derived entry is
the stripped user message just recorded, and the final entry repeats the
raw (unstripped) input. -/
theorem claim4_input_sent_twice (s : ChatService) (input now1 now2 : String)
    (transport : List ApiMessage → ApiResult)
    (hkey : s.validate_api_key = true) (hmsg : pyStrip input ≠ "") :
    (s.process_conversation_turn input now1 now2 transport).2.2.2.2 =
      [{ role := "system", content := s.system_prompt } ::
        (s.messages.map (fun m => { role := m.role, content := m.content }) ++
          [{ role := "user", content := pyStrip input },
           { role := "user", content := input }])] := by
  have hpr : (s.process_conversation_turn input now1 now2 transport).2.2.2.2 =
      ((s.add_user_message input now1).2.get_ai_response input transport).2.2 := rfl
  have h := get_ai_response_calls (s.add_user_message input now1).2 input transport hkey hmsg
  rw [hpr, h]
  simp [ChatService.add_user_message]

/-- C4 witness: on a fresh service with raw input `" hi "`, the payload
ends with the stripped entry `"hi"` followed by the raw entry `" hi "`. -/
theorem claim4_input_sent_twice_witness :
    (ChatService.init "k").validate_api_key = true ∧ pyStrip " hi " ≠ "" ∧
    ((ChatService.init "k").process_conversation_turn " hi " "t1" "t2"
        (fun _ => ApiResult.ok "4")).2.2.2.2 =
      [[{ role := "system", content := get_system_prompt },
        { role := "user", content := "hi" },
        { role := "user", content := " hi " }]] := by
  refine ⟨rfl, by decide, ?_⟩
  exact claim4_input_sent_twice (ChatService.init "k") " hi " "t1" "t2"
    (fun _ => ApiResult.ok "4") rfl (by decide)

/-- Every message in a history list has role `"user"` or `"assistant"`. -/
def rolesOk (l : List Message) : Bool :=
  l.all (fun m => m.role == "user" || m.role == "assistant")

/-- On a history whose roles are all user or assistant, the two role
counts of `get_conversation_stats` partition the length. -/
theorem countP_roles (l : List Message) (h : rolesOk l = true) :
    l.countP (fun msg => msg.role == "user") +
      l.countP (fun msg => msg.role == "assistant") = l.length := by
  induction l with
  | nil => rfl
  | cons m t ih =>
    simp only [rolesOk, List.all_cons, Bool.and_eq_true, Bool.or_eq_true,
      beq_iff_eq] at h
    obtain ⟨hm, ht⟩ := h
    have ht2 : rolesOk t = true := by
      simpa [rolesOk] using ht
    rcases hm with hm | hm <;>
      simp [List.countP_cons, hm, ← ih ht2] <;> omega

/-- Every reachable `ChatService` history contains only user- and
assistant-role messages. -/
theorem chatReachable_rolesOk (s : ChatService) (h : ChatReachable s) :
    rolesOk s.messages = true := by
  induction h with
  | init k => rfl
  | setKey s k _ ih => simpa [ChatService.set_api_key] using ih
  | user s c now _ ih =>
    simpa [ChatService.add_user_message, rolesOk, List.all_append] using ih
  | assistant s c now _ ih =>
    simpa [ChatService.add_assistant_message, rolesOk, List.all_append] using ih
  | turn s input now1 now2 transport _ ih =>
    have hpr : ((s.process_conversation_turn input now1 now2 transport).2.2.2.1).messages =
        (s.messages ++ [{ role := "user", content := pyStrip input, timestamp := now1 }]) ++
          [{ role := "assistant",
             content :=
               pyStrip ((s.add_user_message input now1).2.get_ai_response input transport).1,
             timestamp := now2 }] := rfl
    rw [hpr]
    simpa [rolesOk, List.all_append] using ih
  | clear s _ _ => rfl

/-- C6: in every reachable state, the stats dict satisfies
total = userCount + assistantCount, total equals the length of
`get_messages`, and every stored message has role user or assistant. -/
theorem claim6_stats_invariant (s : ChatService) (h : ChatReachable s) :
    s.get_conversation_stats.total_messages =
        s.get_conversation_stats.user_messages +
          s.get_conversation_stats.assistant_messages ∧
    s.get_conversation_stats.total_messages = s.get_messages.length ∧
    rolesOk s.messages = true := by
  have hr := chatReachable_rolesOk s h
  exact ⟨(countP_roles s.messages hr).symm, rfl, hr⟩

/-- C6 witness: a state reached by one full conversation turn. -/
theorem claim6_stats_invariant_witness :
    (((ChatService.init "k").process_conversation_turn "2+2" "t1" "t2"
          (fun _ => ApiResult.ok "4")).2.2.2.1).get_conversation_stats.total_messages =
        (((ChatService.init "k").process_conversation_turn "2+2" "t1" "t2"
          (fun _ => ApiResult.ok "4")).2.2.2.1).get_conversation_stats.user_messages +
        (((ChatService.init "k").process_conversation_turn "2+2" "t1" "t2"
          (fun _ => ApiResult.ok "4")).2.2.2.1).get_conversation_stats.assistant_messages ∧
    (((ChatService.init "k").process_conversation_turn "2+2" "t1" "t2"
          (fun _ => ApiResult.ok "4")).2.2.2.1).get_conversation_stats.total_messages =
        (((ChatService.init "k").process_conversation_turn "2+2" "t1" "t2"
          (fun _ => ApiResult.ok "4")).2.2.2.1).get_messages.length ∧
    rolesOk (((ChatService.init "k").process_conversation_turn "2+2" "t1" "t2"
          (fun _ => ApiResult.ok "4")).2.2.2.1).messages = true :=
  claim6_stats_invariant _
    (ChatReachable.turn (ChatService.init "k") "2+2" "t1" "t2"
      (fun _ => ApiResult.ok "4") (ChatReachable.init "k"))

/-- After `d[name] = svc`, the key `name` is present. -/
theorem dictHasKey_dictAssign_self (d : List (String × ChatService)) (name : String)
    (svc : ChatService) : dictHasKey (dictAssign d name svc) name = true := by
  unfold dictHasKey dictAssign
  by_cases hd : d.any (fun p => p.1 == name) = true
  · rw [if_pos hd]
    rcases List.any_eq_true.mp hd with ⟨q, hq, hqn⟩
    refine List.any_eq_true.mpr ⟨(name, svc), List.mem_map.mpr ⟨q, hq, by simp [hqn]⟩, by simp⟩
  · rw [if_neg hd]
    simp [List.any_append]

/-- `d[name] = svc` preserves every key already present. -/
theorem dictHasKey_dictAssign_mono (d : List (String × ChatService)) (name n : String)
    (svc : ChatService) (h : dictHasKey d n = true) :
    dictHasKey (dictAssign d name svc) n = true := by
  unfold dictHasKey at h
  unfold dictHasKey dictAssign
  by_cases hd : d.any (fun p => p.1 == name) = true
  · rw [if_pos hd]
    rcases List.any_eq_true.mp h with ⟨q, hq, hqn⟩
    by_cases hq2 : (q.1 == name) = true
    · refine List.any_eq_true.mpr
        ⟨(name, svc), List.mem_map.mpr ⟨q, hq, by simp [hq2]⟩, ?_⟩
      have h1 : q.1 = n := by simpa using hqn
      have h2 : q.1 = name := by simpa using hq2
      have h3 : name = n := by rw [← h2, h1]
      simp [h3]
    · refine List.any_eq_true.mpr ⟨q, List.mem_map.mpr ⟨q, hq, by simp [hq2]⟩, hqn⟩
  · rw [if_neg hd]
    simp [List.any_append]
    left
    simpa using h

/-- Every reachable registry keeps its active name (when set) among the
stored keys. -/
theorem registryReachable_active_valid (r : MultiChatService)
    (h : RegistryReachable r) :
    ∀ n, r.active_service = some n → dictHasKey r.services n = true := by
  induction h with
  | init => intro n hn; cases hn
  | add r name svc _ ih =>
    intro n hn
    unfold MultiChatService.add_service at hn ⊢
    cases hact : r.active_service with
    | none =>
      simp [hact] at hn ⊢
      rw [← hn]
      exact dictHasKey_dictAssign_self r.services name svc
    | some a =>
      simp [hact] at hn ⊢
      exact dictHasKey_dictAssign_mono r.services name n svc (ih n (by rw [hact, hn]))
  | set r name _ ih =>
    intro n hn
    unfold MultiChatService.set_active_service at hn ⊢
    by_cases hk : dictHasKey r.services name = true
    · simp [hk] at hn ⊢
      rw [← hn]
      exact hk
    · simp [hk] at hn ⊢
      exact ih n hn

/-- C7: in every reachable registry the active name (if any) is a stored
key; an `add_service` on an unselected registry selects the new name; and
`set_active_service` selects exactly the present keys, returning false and
leaving the whole state unchanged otherwise. -/
theorem claim7_registry (r : MultiChatService) (h : RegistryReachable r) :
    (∀ n, r.active_service = some n → dictHasKey r.services n = true) ∧
    (∀ name svc, r.active_service = none →
        (r.add_service name svc).active_service = some name) ∧
    (∀ name, (dictHasKey r.services name = true →
          r.set_active_service name = (true, { r with active_service := some name })) ∧
        (dictHasKey r.services name = false →
          r.set_active_service name = (false, r))) := by
  refine ⟨registryReachable_active_valid r h, ?_, ?_⟩
  · intro name svc hact
    simp [MultiChatService.add_service, hact]
  · intro name
    constructor <;> intro hk <;> simp [MultiChatService.set_active_service, hk]

/-- C7 witness: add one service, observe it becomes active and stored, and
that selecting an absent name fails without touching the state. -/
theorem claim7_registry_witness :
    (MultiChatService.init.add_service "A" (ChatService.init "k")).active_service =
        some "A" ∧
    dictHasKey (MultiChatService.init.add_service "A" (ChatService.init "k")).services
        "A" = true ∧
    (MultiChatService.init.add_service "A" (ChatService.init "k")).set_active_service
        "B" = (false, MultiChatService.init.add_service "A" (ChatService.init "k")) := by
  have h0 := claim7_registry MultiChatService.init RegistryReachable.init
  have h1 := claim7_registry (MultiChatService.init.add_service "A" (ChatService.init "k"))
    (RegistryReachable.add MultiChatService.init "A" (ChatService.init "k")
      RegistryReachable.init)
  have hact := h0.2.1 "A" (ChatService.init "k") rfl
  exact ⟨hact, h1.1 "A" hact, (h1.2.2 "B").2 (by decide)⟩

/-- C8: `clear_conversation` empties the history and leaves the credential
and the preamble untouched; a subsequent `process_conversation_turn` still
prepends the very same preamble and succeeds when the transport does. -/
theorem claim8_clear (s : ChatService) (input now1 now2 text : String)
    (hkey : pyStrip s.api_key ≠ "") (hinput : pyStrip input ≠ "") :
    s.clear_conversation.messages = [] ∧
    s.clear_conversation.api_key = s.api_key ∧
    s.clear_conversation.system_prompt = s.system_prompt ∧
    (s.clear_conversation.process_conversation_turn input now1 now2
        (fun _ => ApiResult.ok text)).2.2.1 = true ∧
    (s.clear_conversation.process_conversation_turn input now1 now2
        (fun _ => ApiResult.ok text)).2.2.2.2 =
      [[{ role := "system", content := s.system_prompt },
        { role := "user", content := pyStrip input },
        { role := "user", content := input }]] := by
  have hv : (s.clear_conversation.add_user_message input now1).2.validate_api_key = true := by
    simp only [ChatService.validate_api_key, ChatService.add_user_message,
      ChatService.clear_conversation, bne_iff_ne, ne_eq, decide_eq_true_eq]
    exact hkey
  have h := get_ai_response_ok ((s.clear_conversation.add_user_message input now1).2)
    input text hv hinput
  have hflag : (s.clear_conversation.process_conversation_turn input now1 now2
      (fun _ => ApiResult.ok text)).2.2.1 =
        ((s.clear_conversation.add_user_message input now1).2.get_ai_response input
          (fun _ => ApiResult.ok text)).2.1 := rfl
  have hcalls : (s.clear_conversation.process_conversation_turn input now1 now2
      (fun _ => ApiResult.ok text)).2.2.2.2 =
        ((s.clear_conversation.add_user_message input now1).2.get_ai_response input
          (fun _ => ApiResult.ok text)).2.2 := rfl
  refine ⟨rfl, rfl, rfl, ?_, ?_⟩
  · rw [hflag, h]
  · rw [hcalls, h]
    simp [ChatService.add_user_message, ChatService.clear_conversation]

/-- C8 witness: a service with one recorded message and credential `"k"`;
after `clear_conversation` the history is empty, credential and preamble
are unchanged, and a turn with a succeeding stub transport succeeds with
the same preamble first in the payload. -/
theorem claim8_clear_witness :
    pyStrip "k" ≠ "" ∧ pyStrip " q " ≠ "" ∧
    ((((ChatService.init "k").add_user_message "old" "t0").2).clear_conversation).messages
      = [] ∧
    ((((ChatService.init "k").add_user_message "old" "t0").2).clear_conversation).api_key
      = "k" ∧
    ((((ChatService.init "k").add_user_message "old" "t0").2).clear_conversation).system_prompt
      = get_system_prompt ∧
    (((((ChatService.init "k").add_user_message "old" "t0").2).clear_conversation).process_conversation_turn
        " q " "t1" "t2" (fun _ => ApiResult.ok "4")).2.2.1 = true ∧
    (((((ChatService.init "k").add_user_message "old" "t0").2).clear_conversation).process_conversation_turn
        " q " "t1" "t2" (fun _ => ApiResult.ok "4")).2.2.2.2 =
      [[{ role := "system", content := get_system_prompt },
        { role := "user", content := "q" },
        { role := "user", content := " q " }]] := by
  have h := claim8_clear (((ChatService.init "k").add_user_message "old" "t0").2)
    " q " "t1" "t2" "4" (by decide) (by decide)
  exact ⟨by decide, by decide, h.1, h.2.1, h.2.2.1, h.2.2.2.1, h.2.2.2.2⟩

/-- The per-message block of `export_conversation`:
`[timestamp] RoleLabel:\n<content>\n\n`, with label `You` for user-role
messages and `AI Assistant` otherwise. -/
def messageBlock (m : Message) : String :=
  "[" ++ m.timestamp ++ "] " ++
    (if m.role == "user" then "You" else "AI Assistant") ++ ":\n" ++
    m.content ++ "\n\n"

/-- Concatenation of the per-message blocks in order. -/
def concatBlocks : List Message → String
  | [] => ""
  | m :: t => messageBlock m ++ concatBlocks t

/-- The accumulating fold of `export_conversation` appends one block per
message, in order, to the accumulator. -/
theorem export_foldl (l : List Message) (acc : String) :
    l.foldl
      (fun acc message =>
        acc ++ "[" ++ message.timestamp ++ "] " ++
          (if message.role == "user" then "You" else "AI Assistant") ++
          ":\n" ++ message.content ++ "\n\n")
      acc = acc ++ concatBlocks l := by
  induction l generalizing acc with
  | nil => simp [concatBlocks]
  | cons m t ih =>
    rw [List.foldl_cons, ih, concatBlocks]
    simp [messageBlock, String.append_assoc]

/-- C9: `export_conversation` is exactly the fixed no-history string on an
empty history, and otherwise the header line followed by one
`[timestamp] RoleLabel:\n<content>\n\n` block per message in insertion
order. -/
theorem claim9_export (s : ChatService) :
    s.export_conversation =
      if s.messages.isEmpty then "No conversation history."
      else "=== Conversation Export ===\n\n" ++ concatBlocks s.messages := by
  unfold ChatService.export_conversation
  split
  · rfl
  · exact export_foldl s.messages "=== Conversation Export ===\n\n"

/-- Well-formedness of the address-level state: every history address
points inside the store. -/
def heapWF (st : PyHeapState) : Prop :=
  ∀ a ∈ st.history, a < st.store.length

/-- Allocating a new message leaves old addresses dereferencing as
before. -/
theorem heapDeref_append_lt (store : List Message) (m : Message) (a : Nat)
    (h : a < store.length) : heapDeref (store ++ [m]) a = heapDeref store a := by
  simp [heapDeref, List.getD_eq_getElem?_getD, List.getElem?_append_left h]

/-- The freshly allocated address dereferences to the new message. -/
theorem heapDeref_append_len (store : List Message) (m : Message) :
    heapDeref (store ++ [m]) store.length = m := by
  simp [heapDeref, List.getD_eq_getElem?_getD, List.getElem?_concat_length]

/-- `heapAddMessage` preserves well-formedness. -/
theorem heapWF_addMessage (st : PyHeapState) (m : Message) (h : heapWF st) :
    heapWF (heapAddMessage st m) := by
  intro a ha
  simp only [heapAddMessage, List.mem_append, List.mem_singleton] at ha
  simp only [heapAddMessage, List.length_append, List.length_singleton]
  rcases ha with ha | ha
  · have := h a ha
    omega
  · omega

/-- `heapAddMessage` appends exactly the new message to the observed
sequence. -/
theorem heapView_addMessage (st : PyHeapState) (m : Message) (h : heapWF st) :
    heapView (heapAddMessage st m) = heapView st ++ [m] := by
  unfold heapView heapAddMessage
  simp only [List.map_append, List.map_cons, List.map_nil, heapDeref_append_len]
  congr 1
  exact List.map_congr_left (fun a ha => heapDeref_append_lt st.store m a (h a ha))

/-- Running a sequence of adds appends exactly the created records, in
order, to the observed sequence. -/
theorem runAdds_view (ops : List AddOp) (st : PyHeapState) (h : heapWF st) :
    heapView (runAdds st ops) = heapView st ++ ops.map AddOp.message := by
  induction ops generalizing st with
  | nil => simp [runAdds, heapView]
  | cons op t ih =>
    have hstep : runAdds st (op :: t) = runAdds (heapAddMessage st op.message) t := by
      cases op <;> rfl
    rw [hstep, ih (heapAddMessage st op.message) (heapWF_addMessage st op.message h)]
    rw [heapView_addMessage st op.message h]
    simp [List.append_assoc]

/-- C10, amended: `get_messages` round-trips the created records (exact
content, insertion order) and returns a fresh copy of the history LIST, so
the snapshot holds exactly the internal addresses; because the copy is
shallow, the message records themselves are shared, and an in-place
mutation of a record reached through the snapshot IS visible to subsequent
`get_messages` calls. -/
theorem claim10_snapshot (ops : List AddOp) :
    heapView (runAdds heapInit ops) = ops.map AddOp.message ∧
    (∀ st : PyHeapState, heapGetMessages st = st.history) ∧
    (∀ (st : PyHeapState) (i : Nat) (c : String) (hi : i < st.history.length),
      st.history.get ⟨i, hi⟩ < st.store.length →
      (heapView (heapSetContent st (st.history.get ⟨i, hi⟩) c))[i]? =
        some { heapDeref st.store (st.history.get ⟨i, hi⟩) with content := c }) := by
  refine ⟨?_, fun st => rfl, ?_⟩
  · have h := runAdds_view ops heapInit (fun a ha => absurd ha (List.not_mem_nil a))
    simpa [heapView, heapInit] using h
  · intro st i c hi hlt
    have ha : st.history[i]? = some (st.history.get ⟨i, hi⟩) := by
      simp [List.getElem?_eq_getElem hi]
    unfold heapView heapSetContent
    rw [List.getElem?_map, ha]
    simp [heapDeref, List.getD_eq_getElem?_getD,
      List.getElem?_set_self (by simpa using hlt)]

/-- C10, counterexample to the claim as stated: after one
`add_user_message`, the snapshot holds the address of the stored message
dict; assigning a new content through that dict changes what a subsequent
`get_messages` observes. -/
theorem claim10_counterexample :
    heapGetMessages (heapAddUser heapInit "hi" "t") = [0] ∧
    heapView (heapSetContent (heapAddUser heapInit "hi" "t") 0 "HACK") ≠
      heapView (heapAddUser heapInit "hi" "t") :=
  ⟨rfl, by decide⟩

/-- C10 witness: one add; the view is the created record, and mutating the
record at the snapshot's first address makes the next view show the new
content. -/
theorem claim10_snapshot_witness :
    heapView (runAdds heapInit [AddOp.userOp "hi" "t"]) =
      [{ role := "user", content := "hi", timestamp := "t" }] ∧
    (heapView (heapSetContent (runAdds heapInit [AddOp.userOp "hi" "t"])
        ((runAdds heapInit [AddOp.userOp "hi" "t"]).history.get ⟨0, by decide⟩)
        "HACK"))[0]? =
      some { role := "user", content := "HACK", timestamp := "t" } := by
  have h := claim10_snapshot [AddOp.userOp "hi" "t"]
  have h3 := h.2.2 (runAdds heapInit [AddOp.userOp "hi" "t"]) 0 "HACK"
    (by decide) (by decide)
  exact ⟨h.1, by simpa using h3⟩
